import Mathlib

/-!
Verification of the MECATi delivery-cost estimator core.

The repository's core consists of two pure functions:
* `calculate_delivery_cost` (src/util.py, inlined again in src/app.py) —
  a tiered cost formula over numeric inputs, modelled here over `ℚ`, with
  Python's `round(x, 2)` (round half to even on the scaled value) modelled
  exactly by `round2`;
* `haversine_distance` (src/geoutil.py, inlined again in src/app.py) —
  great-circle distance, modelled over `ℝ` with an explicit `atan2`
  following the usual `math.atan2` case split.
-/

namespace MECATi

/-- Round half to even (banker's rounding) to the nearest integer, as
Python's built-in `round` does. -/
def rnd (q : ℚ) : ℤ :=
  if q - ⌊q⌋ < 1/2 then ⌊q⌋
  else if 1/2 < q - ⌊q⌋ then ⌊q⌋ + 1
  else if ⌊q⌋ % 2 = 0 then ⌊q⌋ else ⌊q⌋ + 1

/-- Python's `round(x, 2)`: round to two decimal places, ties to even. -/
def round2 (q : ℚ) : ℚ := (rnd (q * 100) : ℚ) / 100

/-- The dictionary returned by `calculate_delivery_cost` in src/util.py. -/
structure CostBreakdown where
  base_fee : ℚ
  distance_cost : ℚ
  subtotal : ℚ
  surge_multiplier : ℚ
  surge_amount : ℚ
  discount_percent : ℚ
  discount_amount : ℚ
  final_total : ℚ
  deriving Repr, DecidableEq

/-- `calculate_delivery_cost` from src/util.py (identical copy in src/app.py).
The Python defaults are base_fee=20, per_km_rate=10, surge_multiplier=1.0,
discount_percent=0, min_total=30; here every argument is passed explicitly. -/
def calculate_delivery_cost (distance_km base_fee per_km_rate
    surge_multiplier discount_percent min_total : ℚ) : CostBreakdown :=
  let distance_cost := distance_km * per_km_rate
  let subtotal := base_fee + distance_cost
  let surcharged := subtotal * surge_multiplier
  let discounted := surcharged * (1 - discount_percent / 100)
  let total := max discounted min_total
  { base_fee := base_fee
    distance_cost := round2 distance_cost
    subtotal := round2 subtotal
    surge_multiplier := surge_multiplier
    surge_amount := round2 (surcharged - subtotal)
    discount_percent := discount_percent
    discount_amount := round2 (surcharged - discounted)
    final_total := round2 total }

lemma rnd_intCast (n : ℤ) : rnd (n : ℚ) = n := by
  unfold rnd
  rw [Int.floor_intCast]
  norm_num

lemma rnd_mono {q r : ℚ} (h : q ≤ r) : rnd q ≤ rnd r := by
  have hf : (⌊q⌋ : ℤ) ≤ ⌊r⌋ := Int.floor_le_floor h
  rcases eq_or_lt_of_le hf with heq | hlt
  · unfold rnd
    rw [← heq]
    split_ifs <;> first | omega | linarith
  · unfold rnd
    split_ifs <;> omega

lemma round2_mono {q r : ℚ} (h : q ≤ r) : round2 q ≤ round2 r := by
  unfold round2
  have h1 : rnd (q * 100) ≤ rnd (r * 100) := rnd_mono (by linarith)
  have h2 : ((rnd (q * 100) : ℚ)) ≤ ((rnd (r * 100) : ℚ)) := by exact_mod_cast h1
  linarith

lemma round2_nonneg {q : ℚ} (h : 0 ≤ q) : 0 ≤ round2 q := by
  have h0 : round2 0 = 0 := by
    unfold round2
    rw [zero_mul, show ((0 : ℚ)) = ((0 : ℤ) : ℚ) by norm_num, rnd_intCast]
    norm_num
  calc (0 : ℚ) = round2 0 := h0.symm
    _ ≤ round2 q := round2_mono h

lemma round2_zero : round2 0 = 0 := by
  unfold round2
  rw [zero_mul, show ((0 : ℚ)) = ((0 : ℤ) : ℚ) by norm_num, rnd_intCast]
  norm_num

lemma round2_idem (q : ℚ) : round2 (round2 q) = round2 q := by
  unfold round2
  rw [div_mul_cancel₀ _ (by norm_num : (100 : ℚ) ≠ 0), rnd_intCast]

/-- C1: whenever `min_total` exceeds `discounted`, the returned `final_total`
is `round(min_total, 2)` while the returned `discount_amount` is still
`round(surcharged - discounted, 2)`, computed from the pre-floor amounts. -/
theorem floor_active_fields (d b r m p t : ℚ)
    (h : (b + d * r) * m * (1 - p / 100) < t) :
    (calculate_delivery_cost d b r m p t).final_total = round2 t ∧
    (calculate_delivery_cost d b r m p t).discount_amount =
      round2 ((b + d * r) * m - (b + d * r) * m * (1 - p / 100)) := by
  constructor
  · show round2 (max ((b + d * r) * m * (1 - p / 100)) t) = round2 t
    rw [max_eq_right h.le]
  · rfl

theorem floor_active_fields_witness :
    (calculate_delivery_cost 0 0 0 1 0 30).final_total = round2 30 ∧
    (calculate_delivery_cost 0 0 0 1 0 30).discount_amount =
      round2 ((0 + 0 * 0) * 1 - (0 + 0 * 0) * 1 * (1 - 0 / 100)) :=
  floor_active_fields 0 0 0 1 0 30 (by norm_num)

/-- C2 counterexample: `base_fee` is echoed, not rounded — with input
base_fee = 201/16 = 12.5625 the returned `base_fee` field is not a
two-decimal value, refuting "every monetary field is rounded to 2 dp". -/
theorem monetary_rounding_cx :
    (calculate_delivery_cost 0 (201/16) 0 1 0 0).base_fee ≠
      round2 ((calculate_delivery_cost 0 (201/16) 0 1 0 0).base_fee) := by
  norm_num [calculate_delivery_cost, round2, rnd]

/-- C2 (amended): the monetary fields `distance_cost`, `subtotal`,
`surge_amount`, `discount_amount` and `final_total` are all rounded to
exactly 2 decimal places, while `base_fee` — like `surge_multiplier` and
`discount_percent` — is an echoed input. -/
theorem monetary_rounding (d b r m p t : ℚ) :
    round2 (calculate_delivery_cost d b r m p t).distance_cost =
      (calculate_delivery_cost d b r m p t).distance_cost ∧
    round2 (calculate_delivery_cost d b r m p t).subtotal =
      (calculate_delivery_cost d b r m p t).subtotal ∧
    round2 (calculate_delivery_cost d b r m p t).surge_amount =
      (calculate_delivery_cost d b r m p t).surge_amount ∧
    round2 (calculate_delivery_cost d b r m p t).discount_amount =
      (calculate_delivery_cost d b r m p t).discount_amount ∧
    round2 (calculate_delivery_cost d b r m p t).final_total =
      (calculate_delivery_cost d b r m p t).final_total ∧
    (calculate_delivery_cost d b r m p t).base_fee = b ∧
    (calculate_delivery_cost d b r m p t).surge_multiplier = m ∧
    (calculate_delivery_cost d b r m p t).discount_percent = p :=
  ⟨round2_idem _, round2_idem _, round2_idem _, round2_idem _, round2_idem _,
    rfl, rfl, rfl⟩

/-- C3 counterexample: with min_total = 30.004 (and everything else zero)
the floor is active yet the returned `final_total` is 30.00 < 30.004, so
`final_total` is not always at least `min_total`. -/
theorem final_total_floor_cx :
    (calculate_delivery_cost 0 0 0 1 0 (7501/250)).final_total < 7501/250 := by
  norm_num [calculate_delivery_cost, round2, rnd]

/-- C3 (amended): the returned `final_total` is always at least
`round(min_total, 2)`; the final rounding can dip up to half a cent below
`min_total` itself when `min_total` has more than two decimal places. -/
theorem final_total_ge_round_min (d b r m p t : ℚ) :
    round2 t ≤ (calculate_delivery_cost d b r m p t).final_total := by
  show round2 t ≤ round2 (max ((b + d * r) * m * (1 - p / 100)) t)
  exact round2_mono (le_max_right _ _)

/-- C4: with per_km_rate ≥ 0, surge_multiplier ≥ 0, discount_percent in
[0, 100] and min_total ≥ 0 all fixed, `final_total` is monotone
non-decreasing in `distance_km`. -/
theorem final_total_mono_distance (d1 d2 b r m p t : ℚ) (h12 : d1 ≤ d2)
    (hr : 0 ≤ r) (hm : 0 ≤ m) (hp0 : 0 ≤ p) (hp1 : p ≤ 100) (ht : 0 ≤ t) :
    (calculate_delivery_cost d1 b r m p t).final_total ≤
      (calculate_delivery_cost d2 b r m p t).final_total := by
  have hd : (b + d1 * r) * m * (1 - p / 100) ≤
      (b + d2 * r) * m * (1 - p / 100) := by
    have h1 : b + d1 * r ≤ b + d2 * r := by nlinarith
    have h2 : (b + d1 * r) * m ≤ (b + d2 * r) * m :=
      mul_le_mul_of_nonneg_right h1 hm
    have h3 : (0 : ℚ) ≤ 1 - p / 100 := by linarith
    exact mul_le_mul_of_nonneg_right h2 h3
  show round2 (max ((b + d1 * r) * m * (1 - p / 100)) t) ≤
    round2 (max ((b + d2 * r) * m * (1 - p / 100)) t)
  exact round2_mono (max_le_max hd le_rfl)

theorem final_total_mono_distance_witness :
    (calculate_delivery_cost 5 20 10 1 0 30).final_total ≤
      (calculate_delivery_cost 10 20 10 1 0 30).final_total :=
  final_total_mono_distance 5 10 20 10 1 0 30 (by norm_num) (by norm_num)
    (by norm_num) (by norm_num) (by norm_num) (by norm_num)

/-- C5 counterexample: surge_multiplier = 2 ≥ 1 but a negative subtotal
(distance_km = -10 with the default fees) makes the returned
`surge_amount` negative, refuting "always ≥ 0 whenever surge ≥ 1". -/
theorem surge_amount_cx :
    (1 : ℚ) ≤ 2 ∧ (calculate_delivery_cost (-10) 20 10 2 0 30).surge_amount < 0 := by
  constructor
  · norm_num
  · norm_num [calculate_delivery_cost, round2, rnd]

/-- C5 (amended): when surge_multiplier ≥ 1 AND the pre-surge subtotal
`base_fee + distance_km * per_km_rate` is non-negative (as it is for all
inputs in the documented ranges), the returned `surge_amount` is ≥ 0; and
it is exactly 0 whenever surge_multiplier = 1. -/
theorem surge_amount_nonneg (d b r m p t : ℚ) :
    (1 ≤ m → 0 ≤ b + d * r →
      0 ≤ (calculate_delivery_cost d b r m p t).surge_amount) ∧
    (m = 1 → (calculate_delivery_cost d b r m p t).surge_amount = 0) := by
  constructor
  · intro hm hs
    show 0 ≤ round2 ((b + d * r) * m - (b + d * r))
    apply round2_nonneg
    nlinarith
  · intro hm
    subst hm
    show round2 ((b + d * r) * 1 - (b + d * r)) = 0
    rw [mul_one, sub_self, round2_zero]

theorem surge_amount_nonneg_witness :
    0 ≤ (calculate_delivery_cost 0 20 10 2 0 30).surge_amount :=
  (surge_amount_nonneg 0 20 10 2 0 30).1 (by norm_num) (by norm_num)

/-- C8: the combined surge-and-discount scenario — distance 10, base fee
20, rate 10, surge 1.5, discount 20 %, floor 30 — yields distance_cost 100,
subtotal 120, surge_amount 60, discount_amount 36 and final_total 144. -/
theorem combined_scenario :
    (calculate_delivery_cost 10 20 10 (3/2) 20 30).distance_cost = 100 ∧
    (calculate_delivery_cost 10 20 10 (3/2) 20 30).subtotal = 120 ∧
    (calculate_delivery_cost 10 20 10 (3/2) 20 30).surge_amount = 60 ∧
    (calculate_delivery_cost 10 20 10 (3/2) 20 30).discount_amount = 36 ∧
    (calculate_delivery_cost 10 20 10 (3/2) 20 30).final_total = 144 := by
  norm_num [calculate_delivery_cost, round2, rnd]

/-- C9: the `base_fee` field of the returned breakdown is the input
`base_fee` echoed exactly, with no rounding applied. -/
theorem base_fee_echoed (d b r m p t : ℚ) :
    (calculate_delivery_cost d b r m p t).base_fee = b := rfl

noncomputable section

/-- Python's `math.radians`: degrees to radians. -/
def radians (x : ℝ) : ℝ := x * (Real.pi / 180)

/-- Python's `math.atan2 y x`, by the standard case split on the signs of
the arguments (signed zeros do not exist in `ℝ`; `atan2 0 0 = 0` as in
CPython). -/
def atan2 (y x : ℝ) : ℝ :=
  if 0 < x then Real.arctan (y / x)
  else if x < 0 then
    (if 0 ≤ y then Real.arctan (y / x) + Real.pi
     else Real.arctan (y / x) - Real.pi)
  else
    (if 0 < y then Real.pi / 2 else if y < 0 then -(Real.pi / 2) else 0)

/-- The intermediate `a` of `haversine_distance` in src/geoutil.py:
`sin(dlat/2)**2 + cos(lat1)*cos(lat2)*sin(dlon/2)**2` after converting all
four inputs to radians. -/
def haversine_a (lat1 lon1 lat2 lon2 : ℝ) : ℝ :=
  Real.sin ((radians lat2 - radians lat1) / 2) ^ 2 +
    Real.cos (radians lat1) * Real.cos (radians lat2) *
      Real.sin ((radians lon2 - radians lon1) / 2) ^ 2

/-- `haversine_distance` from src/geoutil.py (identical copy in
src/app.py): `R * c` with `R = 6371.0` and
`c = 2 * atan2(sqrt(a), sqrt(1 - a))`. -/
def haversine_distance (lat1 lon1 lat2 lon2 : ℝ) : ℝ :=
  let a := haversine_a lat1 lon1 lat2 lon2
  let c := 2 * atan2 (Real.sqrt a) (Real.sqrt (1 - a))
  6371 * c

lemma sin_sq_half_eq (t : ℝ) :
    Real.sin (t / 2) ^ 2 = (1 - Real.cos t) / 2 := by
  have h := Real.sin_sq_eq_half_sub (t / 2)
  rw [show 2 * (t / 2) = t by ring] at h
  linarith

lemma hav_identity (u v δ : ℝ) :
    Real.sin ((v - u) / 2) ^ 2 + Real.cos u * Real.cos v * Real.sin (δ / 2) ^ 2
      = (1 - (Real.sin u * Real.sin v + Real.cos u * Real.cos v * Real.cos δ)) / 2 := by
  rw [sin_sq_half_eq, sin_sq_half_eq, Real.cos_sub]
  ring

lemma sphere_dot_bounds (u v δ : ℝ) :
    -1 ≤ Real.sin u * Real.sin v + Real.cos u * Real.cos v * Real.cos δ ∧
      Real.sin u * Real.sin v + Real.cos u * Real.cos v * Real.cos δ ≤ 1 := by
  have p1 := Real.sin_sq_add_cos_sq u
  have p2 := Real.sin_sq_add_cos_sq v
  have hc1 := Real.neg_one_le_cos δ
  have hc2 := Real.cos_le_one δ
  constructor
  · nlinarith [sq_nonneg (Real.sin u + Real.sin v),
      mul_nonneg (by linarith : (0:ℝ) ≤ 1 + Real.cos δ)
        (sq_nonneg (Real.cos u + Real.cos v)),
      mul_nonneg (by linarith : (0:ℝ) ≤ 1 - Real.cos δ)
        (sq_nonneg (Real.cos u - Real.cos v))]
  · nlinarith [sq_nonneg (Real.sin u - Real.sin v),
      mul_nonneg (by linarith : (0:ℝ) ≤ 1 + Real.cos δ)
        (sq_nonneg (Real.cos u - Real.cos v)),
      mul_nonneg (by linarith : (0:ℝ) ≤ 1 - Real.cos δ)
        (sq_nonneg (Real.cos u + Real.cos v))]

lemma haversine_a_bounds (lat1 lon1 lat2 lon2 : ℝ) :
    0 ≤ haversine_a lat1 lon1 lat2 lon2 ∧ haversine_a lat1 lon1 lat2 lon2 ≤ 1 := by
  unfold haversine_a
  rw [hav_identity]
  obtain ⟨hl, hu⟩ := sphere_dot_bounds (radians lat1) (radians lat2)
    (radians lon2 - radians lon1)
  constructor <;> linarith

lemma atan2_nonneg {y x : ℝ} (hy : 0 ≤ y) (hx : 0 ≤ x) : 0 ≤ atan2 y x := by
  unfold atan2
  rcases lt_or_eq_of_le hx with hx' | hx'
  · rw [if_pos hx']
    rw [show (0:ℝ) = Real.arctan 0 from Real.arctan_zero.symm]
    exact Real.arctan_strictMono.monotone (div_nonneg hy hx'.le)
  · rw [if_neg (by linarith), if_neg (by linarith)]
    rcases lt_or_eq_of_le hy with hy' | hy'
    · rw [if_pos hy']
      linarith [Real.pi_pos]
    · rw [if_neg (by linarith), if_neg (by linarith)]

lemma atan2_le_half_pi {y x : ℝ} (hy : 0 ≤ y) (hx : 0 ≤ x) :
    atan2 y x ≤ Real.pi / 2 := by
  unfold atan2
  rcases lt_or_eq_of_le hx with hx' | hx'
  · rw [if_pos hx']
    exact (Real.arctan_lt_pi_div_two _).le
  · rw [if_neg (by linarith), if_neg (by linarith)]
    rcases lt_or_eq_of_le hy with hy' | hy'
    · rw [if_pos hy']
    · rw [if_neg (by linarith), if_neg (by linarith)]
      linarith [Real.pi_pos]

lemma sin_sq_swap (u v : ℝ) :
    Real.sin ((u - v) / 2) ^ 2 = Real.sin ((v - u) / 2) ^ 2 := by
  rw [show (u - v) / 2 = -((v - u) / 2) by ring, Real.sin_neg]
  ring

lemma haversine_a_symm (lat1 lon1 lat2 lon2 : ℝ) :
    haversine_a lat1 lon1 lat2 lon2 = haversine_a lat2 lon2 lat1 lon1 := by
  unfold haversine_a
  rw [sin_sq_swap (radians lat2) (radians lat1),
    sin_sq_swap (radians lon2) (radians lon1)]
  ring

/-- C6: for all real inputs both square-root arguments of
`haversine_distance` — the haversine term `a` and `1 - a` — are
non-negative, and the returned distance is non-negative; no error branch
exists. -/
theorem haversine_total_nonneg (lat1 lon1 lat2 lon2 : ℝ) :
    0 ≤ haversine_a lat1 lon1 lat2 lon2 ∧
    0 ≤ 1 - haversine_a lat1 lon1 lat2 lon2 ∧
    0 ≤ haversine_distance lat1 lon1 lat2 lon2 := by
  obtain ⟨h0, h1⟩ := haversine_a_bounds lat1 lon1 lat2 lon2
  refine ⟨h0, by linarith, ?_⟩
  show 0 ≤ 6371 * (2 * atan2 (Real.sqrt (haversine_a lat1 lon1 lat2 lon2))
    (Real.sqrt (1 - haversine_a lat1 lon1 lat2 lon2)))
  have := atan2_nonneg (Real.sqrt_nonneg (haversine_a lat1 lon1 lat2 lon2))
    (Real.sqrt_nonneg (1 - haversine_a lat1 lon1 lat2 lon2))
  linarith

/-- C7: `haversine_distance` is symmetric in its two coordinate pairs. -/
theorem haversine_symm (lat1 lon1 lat2 lon2 : ℝ) :
    haversine_distance lat1 lon1 lat2 lon2 =
      haversine_distance lat2 lon2 lat1 lon1 := by
  unfold haversine_distance
  rw [haversine_a_symm]

/-- C10: the result of `haversine_distance` is bounded above by
`π * 6371` km (half the Earth's circumference): the haversine term lies in
[0, 1], so the central angle `c` lies in [0, π]. -/
theorem haversine_le_half_circumference (lat1 lon1 lat2 lon2 : ℝ) :
    haversine_distance lat1 lon1 lat2 lon2 ≤ Real.pi * 6371 := by
  show 6371 * (2 * atan2 (Real.sqrt (haversine_a lat1 lon1 lat2 lon2))
    (Real.sqrt (1 - haversine_a lat1 lon1 lat2 lon2))) ≤ Real.pi * 6371
  have := atan2_le_half_pi (Real.sqrt_nonneg (haversine_a lat1 lon1 lat2 lon2))
    (Real.sqrt_nonneg (1 - haversine_a lat1 lon1 lat2 lon2))
  linarith

end

end MECATi
